import Mathlib

/-!
# Verification of the transformrs text-to-speech adapter

Shallow embedding of `src/text_to_speech.rs` (the TTS adapter of the
transformrs crate) together with proofs of the specified properties.

Modelling conventions:
* Rust `Vec<u8>` / `Bytes` byte buffers are `List Nat` (each entry < 256).
* `serde_json::Value` is the inductive `Json` below.  The external JSON
  *parser* (`serde_json::from_slice`) is an out-of-scope black box per the
  spec, so functions that parse are parameterized by a
  `fromSlice : List Nat → Option Json` argument (`none` = parse error).
  The JSON *display* used in error messages (`format!("{}", value)` /
  `Value::to_string()`) is embedded concretely as `Json.render`
  (serde_json compact rendering).
* Rust `f32` values (only `TTSConfig.speed`) are modelled as `Rat`; no
  claim depends on float semantics, only on field presence.
* A Rust function that can panic is embedded with result type
  `RustResult α`, whose `fatal` constructor models a panic (with the
  panic message) and whose `err` constructor models returning `Err`.
* `Provider`, `Key`, `Provider::domain` and `request_headers` live in
  crate files not present under `src/`; they are modelled from the spec
  (see their doc comments) or taken as parameters.
-/

/-- Embedding of `serde_json::Value`.  Numbers are modelled as `Rat`
(the claims under verification never depend on numeric values, only on
key presence). -/
inductive Json where
  | null : Json
  | bool : Bool → Json
  | num : Rat → Json
  | str : String → Json
  | arr : List Json → Json
  | obj : List (String × Json) → Json

/-- First-match lookup in an object's field list (serde_json maps have
unique keys, so first-match agrees with map lookup). -/
def assocLookup (fs : List (String × Json)) (k : String) : Option Json :=
  match fs with
  | [] => none
  | (k', v) :: rest => if k' = k then some v else assocLookup rest k

/-- Insert-or-replace for an object's field list: replaces the value of
an existing key in place, appends otherwise (serde_json `Map::insert`
replace semantics). -/
def assocSet (fs : List (String × Json)) (k : String) (v : Json) :
    List (String × Json) :=
  match fs with
  | [] => [(k, v)]
  | (k', v') :: rest =>
    if k' = k then (k, v) :: rest else (k', v') :: assocSet rest k v

/-- Embedding of `Value::get(key)`: `Some` for a present object key,
`None` for a missing key or a non-object. -/
def Json.get (j : Json) (k : String) : Option Json :=
  match j with
  | .obj fs => assocLookup fs k
  | _ => none

/-- Embedding of `value[key]` (the `Index<&str>` impl): the value when
present, `Value::Null` otherwise. -/
def Json.idx (j : Json) (k : String) : Json :=
  (j.get k).getD .null

/-- Embedding of `value[key] = v` (the `IndexMut<&str>` impl): insert
into an object; `Null` auto-vivifies to a one-entry object.  serde_json
panics on the remaining shapes; that case is unreachable in the embedded
code (the target is always an object), so it is the identity here. -/
def Json.setKey (j : Json) (k : String) (v : Json) : Json :=
  match j with
  | .obj fs => .obj (assocSet fs k v)
  | .null => .obj [(k, v)]
  | other => other

/-- Embedding of `Value::as_str()`. -/
def Json.asStr (j : Json) : Option String :=
  match j with
  | .str s => some s
  | _ => none

/-- Embedding of `Value::as_array()`. -/
def Json.asArr (j : Json) : Option (List Json) :=
  match j with
  | .arr xs => some xs
  | _ => none

/-- serde_json string escaping of one character: `"` and backslash are
escaped, control characters use the short forms or a `\u00XX` escape. -/
def escapeChar (c : Char) : String :=
  if c = '"' then "\\\""
  else if c = '\\' then "\\\\"
  else if c = '\n' then "\\n"
  else if c = '\r' then "\\r"
  else if c = '\t' then "\\t"
  else if c.toNat = 8 then "\\b"
  else if c.toNat = 12 then "\\f"
  else if c.toNat < 32 then
    let hexDigit (n : Nat) : Char := if n < 10 then Char.ofNat (48 + n) else Char.ofNat (87 + n)
    String.mk ['\\', 'u', '0', '0', hexDigit (c.toNat / 16), hexDigit (c.toNat % 16)]
  else String.mk [c]

/-- serde_json string escaping of a character list. -/
def escapeList : List Char → String
  | [] => ""
  | c :: rest => escapeChar c ++ escapeList rest

/-- serde_json string escaping. -/
def escapeStr (s : String) : String :=
  escapeList s.data

/-- serde_json compact rendering of a string literal. -/
def renderString (s : String) : String :=
  "\"" ++ escapeStr s ++ "\""

/-- Rendering of a number.  The external library's float formatting is
out of scope per the spec and no claim depends on it; rationals are
shown as integers when possible. -/
def renderNum (q : Rat) : String :=
  if q.den = 1 then toString q.num else toString q.num ++ "/" ++ toString q.den

mutual

/-- Embedding of serde_json's compact `Display` for `Value`
(`format!("{}", value)` / `Value::to_string()`). -/
def Json.render : Json → String
  | .null => "null"
  | .bool true => "true"
  | .bool false => "false"
  | .num q => renderNum q
  | .str s => renderString s
  | .arr xs => "[" ++ Json.renderArr xs ++ "]"
  | .obj fs => "\x7b" ++ Json.renderObj fs ++ "\x7d"

/-- Comma-separated rendering of array elements. -/
def Json.renderArr : List Json → String
  | [] => ""
  | [x] => Json.render x
  | x :: y :: rest => Json.render x ++ "," ++ Json.renderArr (y :: rest)

/-- Comma-separated rendering of object fields. -/
def Json.renderObj : List (String × Json) → String
  | [] => ""
  | [(k, v)] => renderString k ++ ":" ++ Json.render v
  | (k, v) :: f :: rest => renderString k ++ ":" ++ Json.render v ++ "," ++ Json.renderObj (f :: rest)

end

/-- Modelled from the spec: the `Provider` enumeration is defined in a
crate file not present under `src/`; the spec lists
"OpenAI, DeepInfra, Hyperbolic, Google, etc.", so the further variants
implied by "etc." are represented by the single variant `other`. -/
inductive Provider where
  | OpenAI : Provider
  | DeepInfra : Provider
  | Hyperbolic : Provider
  | Google : Provider
  | other : Provider
deriving DecidableEq, Repr

/-- Modelled from the spec: the `Display` impl for `Provider` is not
under `src/`; only the panic messages built from it use it, and no claim
depends on its exact text beyond the surrounding literal. -/
def Provider.display (p : Provider) : String :=
  match p with
  | .OpenAI => "openai"
  | .DeepInfra => "deepinfra"
  | .Hyperbolic => "hyperbolic"
  | .Google => "google"
  | .other => "other"

/-- Modelled from the spec: `Key` "pairs a `Provider` with a credential
string"; the field names `provider` and `key` are the ones used by
`src/text_to_speech.rs` (`key.provider`, `key.key`). -/
structure Key where
  provider : Provider
  key : String

/-- A `reqwest::header::HeaderMap` as a list of name/value pairs. -/
abbrev HeaderMap := List (String × String)

/-- Embedding of `HeaderMap::remove(name)` (restricted to its effect on
the map): all entries for the name are removed.  Header-name case
normalization is immaterial here because the embedded code only ever
removes the fixed name `"Authorization"`. -/
def removeHeader (name : String) (hs : HeaderMap) : HeaderMap :=
  hs.filter (fun h => h.1 ≠ name)

/-- Result of a Rust call that may return `Ok`, return `Err`, or panic:
`fatal` models a panic together with its message. -/
inductive RustResult (α : Type) where
  | ok : α → RustResult α
  | err : String → RustResult α
  | fatal : String → RustResult α

/-- Whether a `RustResult` is the `err` (recoverable `Err`) outcome. -/
def RustResult.isErr {α : Type} : RustResult α → Bool
  | .err _ => true
  | _ => false

/-- Whether a `RustResult` is the `fatal` (panic) outcome. -/
def RustResult.isFatal {α : Type} : RustResult α → Bool
  | .fatal _ => true
  | _ => false

/-- The RFC 4648 standard base64 alphabet used by `BASE64_STANDARD`. -/
def b64Alphabet : List Char :=
  ['A', 'B', 'C', 'D', 'E', 'F', 'G', 'H', 'I', 'J', 'K', 'L', 'M',
   'N', 'O', 'P', 'Q', 'R', 'S', 'T', 'U', 'V', 'W', 'X', 'Y', 'Z',
   'a', 'b', 'c', 'd', 'e', 'f', 'g', 'h', 'i', 'j', 'k', 'l', 'm',
   'n', 'o', 'p', 'q', 'r', 's', 't', 'u', 'v', 'w', 'x', 'y', 'z',
   '0', '1', '2', '3', '4', '5', '6', '7', '8', '9', '+', '/']

/-- The alphabet character for a 6-bit value. -/
def encChar (n : Nat) : Char :=
  b64Alphabet.getD n 'A'

/-- Index search in the alphabet, accumulator form. -/
def charIdxAux (c : Char) : List Char → Nat → Option Nat
  | [], _ => none
  | a :: rest, i => if a = c then some i else charIdxAux c rest (i + 1)

/-- The 6-bit value of an alphabet character; `none` for anything not in
the standard alphabet (in particular for `=`). -/
def charIdx (c : Char) : Option Nat :=
  charIdxAux c b64Alphabet 0

/-- Standard base64 encoding with `=` padding of a byte sequence
(`BASE64_STANDARD.encode`). -/
def b64encode : List Nat → List Char
  | [] => []
  | [a] =>
    [encChar (a / 4), encChar (a % 4 * 16), '=', '=']
  | [a, b] =>
    [encChar (a / 4), encChar (a % 4 * 16 + b / 16), encChar (b % 16 * 4), '=']
  | a :: b :: c :: rest =>
    encChar (a / 4) :: encChar (a % 4 * 16 + b / 16) ::
      encChar (b % 16 * 4 + c / 64) :: encChar (c % 64) :: b64encode rest

/-- Strict decoding of a full (non-padded) group of four characters. -/
def decodeFullGroup (c1 c2 c3 c4 : Char) : Option (List Nat) :=
  match charIdx c1, charIdx c2, charIdx c3, charIdx c4 with
  | some d1, some d2, some d3, some d4 =>
    some [d1 * 4 + d2 / 16, d2 % 16 * 16 + d3 / 4, d3 % 4 * 64 + d4]
  | _, _, _, _ => none

/-- Strict decoding of the final group of four characters, which may
carry `=` padding; trailing bits must be zero (canonical encoding). -/
def decodeLastGroup (c1 c2 c3 c4 : Char) : Option (List Nat) :=
  if c3 = '=' then
    if c4 = '=' then
      match charIdx c1, charIdx c2 with
      | some d1, some d2 => if d2 % 16 = 0 then some [d1 * 4 + d2 / 16] else none
      | _, _ => none
    else none
  else if c4 = '=' then
    match charIdx c1, charIdx c2, charIdx c3 with
    | some d1, some d2, some d3 =>
      if d3 % 4 = 0 then some [d1 * 4 + d2 / 16, d2 % 16 * 16 + d3 / 4] else none
    | _, _, _ => none
  else decodeFullGroup c1 c2 c3 c4

/-- Strict standard base64 decoding (`BASE64_STANDARD.decode`): the
input length must be a multiple of four, `=` may appear only as padding
of the final group, non-alphabet characters and non-canonical padding
are rejected. -/
def b64decode : List Char → Option (List Nat)
  | [] => some []
  | c1 :: c2 :: c3 :: c4 :: rest =>
    if rest.isEmpty then decodeLastGroup c1 c2 c3 c4
    else
      match decodeFullGroup c1 c2 c3 c4 with
      | some bytes => (b64decode rest).map (fun tail => bytes ++ tail)
      | none => none
  | _ => none

/-- Embedding of `str::strip_prefix` on character lists: the remainder
after the expected leading characters, or `none` when they are absent. -/
def stripLeading : List Char → List Char → Option (List Char)
  | [], s => some s
  | _ :: _, [] => none
  | p :: ps, c :: cs => if c = p then stripLeading ps cs else none

/-- The DeepInfra data-URL marker stripped before base64 decoding. -/
def deepinfraMarker : String := "data:audio/mp3;base64,"

/-- Embedding of the `Speech` struct. -/
structure Speech where
  request_id : Option String
  file_format : String
  audio : List Nat

/-- Embedding of `Speech::base64_decode`: for DeepInfra the data-URL
marker is stripped first (`expect("no mp3 prefix")` panics when absent);
the remainder is decoded strictly (`expect("no decode")` panics on
failure).  The `Err` branch of the Rust return type is never used. -/
def Speech.base64_decode (audio : String) (provider : Provider) :
    RustResult (List Nat) :=
  match
    (if provider = Provider.DeepInfra then
      stripLeading deepinfraMarker.data audio.data
    else some audio.data) with
  | none => .fatal "no mp3 prefix"
  | some stripped =>
    match b64decode stripped with
    | none => .fatal "no decode"
    | some bytes => .ok bytes

/-- Embedding of the `SpeechResponse` struct: raw response bytes tagged
with the provider that produced them. -/
structure SpeechResponse where
  provider : Provider
  resp : List Nat

/-- Embedding of `SpeechResponse::raw_value`, parameterized by the
external JSON parser (`serde_json::from_slice`); its parse error is
propagated as a recoverable error by the `?` operator. -/
def SpeechResponse.raw_value (fromSlice : List Nat → Option Json)
    (self : SpeechResponse) : RustResult Json :=
  match fromSlice self.resp with
  | some v => .ok v
  | none => .err "invalid JSON"

/-- Modelled from the Rust standard library: the `Option::unwrap` panic
message (its exact text is outside this repository; no claim depends on
it). -/
def unwrapNoneMsg : String := "called Option unwrap on a None value"

/-- Embedding of `SpeechResponse::structured`: the provider-tagged
branch over the response body (`src/text_to_speech.rs` lines 83-138),
parameterized by the external JSON parser. -/
def SpeechResponse.structured (fromSlice : List Nat → Option Json)
    (self : SpeechResponse) : RustResult Speech :=
  if self.provider = Provider.DeepInfra then
    match self.raw_value fromSlice with
    | .err e => .err e
    | .fatal m => .fatal m
    | .ok resp =>
      if (resp.get "detail").isSome then
        .err ("DeepInfra returned an error: " ++ (resp.idx "detail").render)
      else
        match (resp.idx "audio").asStr with
        | none => .fatal "no audio in resp"
        | some audio =>
          match (resp.idx "request_id").asStr with
          | none => .fatal unwrapNoneMsg
          | some rid =>
            match (resp.idx "output_format").asStr with
            | none => .fatal unwrapNoneMsg
            | some fmt =>
              match Speech.base64_decode audio self.provider with
              | .err e => .err e
              | .fatal m => .fatal m
              | .ok bytes =>
                .ok { request_id := some rid, file_format := fmt, audio := bytes }
  else if self.provider = Provider.Hyperbolic then
    match self.raw_value fromSlice with
    | .err e => .err e
    | .fatal m => .fatal m
    | .ok resp =>
      match (resp.idx "audio").asStr with
      | none => .fatal unwrapNoneMsg
      | some audio =>
        match Speech.base64_decode audio self.provider with
        | .err e => .err e
        | .fatal m => .fatal m
        | .ok bytes =>
          .ok { request_id := none, file_format := "mp3", audio := bytes }
  else if self.provider = Provider.OpenAI then
    match fromSlice self.resp with
    | some resp =>
      if (resp.get "error").isSome then .err (resp.idx "error").render
      else .ok { request_id := none, file_format := "mp3", audio := self.resp }
    | none => .ok { request_id := none, file_format := "mp3", audio := self.resp }
  else if self.provider = Provider.Google then
    match self.raw_value fromSlice with
    | .err e => .err e
    | .fatal m => .fatal m
    | .ok resp =>
      if (resp.get "error").isSome then .err (resp.idx "error").render
      else
        match (resp.idx "audioContent").asStr with
        | none => .fatal "audioContent"
        | some audio =>
          match (resp.idx "timepoints").asArr with
          | none => .fatal unwrapNoneMsg
          | some _ =>
            match Speech.base64_decode audio self.provider with
            | .err e => .err e
            | .fatal m => .fatal m
            | .ok bytes =>
              .ok { request_id := none, file_format := "mp3", audio := bytes }
  else
    .fatal ("Unsupported TTS provider: " ++ self.provider.display)

/-- Embedding of `TTSConfig`.  `speed` is a Rust `f32`, modelled as
`Rat`; `other` is a `HashMap<String, Value>`, modelled as an association
list whose keys are distinct (HashMap key uniqueness appears as a
`Nodup` hypothesis where it matters). -/
structure TTSConfig where
  output_format : Option String := none
  voice : Option String := none
  speed : Option Rat := none
  language_code : Option String := none
  other : Option (List (String × Json)) := none

/-- Embedding of the private `address` function
(`src/text_to_speech.rs` lines 28-43).  `Provider::domain` is defined
outside `src/`, so it is taken as a parameter; the unsupported-provider
branch panics. -/
def address (domain : Provider → String) (key : Key) (model : Option String) :
    RustResult String :=
  if key.provider = Provider.DeepInfra then
    let model := model.getD "hexgrad/Kokoro-82M"
    .ok (domain key.provider ++ "/v1/inference/" ++ model)
  else if key.provider = Provider.Hyperbolic then
    .ok (domain key.provider ++ "/v1/audio/generation")
  else if key.provider = Provider.OpenAI then
    .ok (domain key.provider ++ "/v1/audio/speech")
  else if key.provider = Provider.Google then
    let dom := "https://texttospeech.googleapis.com"
    let path := "/v1beta1/text:synthesize"
    .ok (dom ++ path ++ "?key=" ++ key.key)
  else
    .fatal ("Unsupported TTS provider: " ++ key.provider.display)

/-- Embedding of the voice-placement step of `tts`
(`src/text_to_speech.rs` lines 161-181): provider-conditional placement
of `config.voice`, with the Google branch additionally nesting the
language code and injecting the fixed `audioConfig` object; any provider
other than OpenAI, Google and DeepInfra panics here. -/
def tts_body_voice (key : Key) (config : TTSConfig)
    (body : List (String × Json)) : RustResult (List (String × Json)) :=
  match config.voice with
  | none => .ok body
  | some voice =>
    if key.provider = Provider.OpenAI then
      .ok (assocSet body "voice" (.str voice))
    else if key.provider = Provider.Google then
      let body := assocSet body "voice" (.obj [("name", .str voice)])
      let body :=
        match config.language_code with
        | some language_code =>
          assocSet body "voice"
            ((assocLookup body "voice").getD .null |>.setKey "languageCode"
              (.str language_code))
        | none => body
      .ok (assocSet body "audioConfig"
        (.obj [("audioEncoding", .str "LINEAR16"), ("pitch", .num 0),
               ("speakingRate", .num 1)]))
    else if key.provider = Provider.DeepInfra then
      .ok (assocSet body "preset_voice" (.str voice))
    else
      .fatal ("Unsupported TTS provider: " ++ key.provider.display)

/-- Embedding of the input/model placement of `tts`
(`src/text_to_speech.rs` lines 148-160): the body starts as the empty
JSON object, the input text is placed under a provider-dependent field
name, and the model is added when supplied. -/
def tts_body_base (key : Key) (model : Option String) (text : String) :
    List (String × Json) :=
  let body : List (String × Json) := []
  let body :=
    if key.provider = Provider.OpenAI then
      assocSet body "input" (.str text)
    else if key.provider = Provider.Google then
      assocSet body "input" (.obj [("text", .str text)])
    else
      assocSet body "text" (.str text)
  match model with
  | some model => assocSet body "model" (.str model)
  | none => body

/-- Embedding of the speed/output-format placement and the final
`config.other` merge of `tts` (`src/text_to_speech.rs` lines 182-192). -/
def tts_body_post (config : TTSConfig) (body : List (String × Json)) :
    List (String × Json) :=
  let body :=
    match config.speed with
    | some speed => assocSet body "speed" (.num speed)
    | none => body
  let body :=
    match config.output_format with
    | some output_format => assocSet body "output_format" (.str output_format)
    | none => body
  match config.other with
  | some other => other.foldl (fun b kv => assocSet b kv.1 kv.2) body
  | none => body

/-- Embedding of the request-body construction of `tts`
(`src/text_to_speech.rs` lines 148-192), assembled from the three
stages in source order.  The network side of `tts` (the POST itself) is
outside the embedding. -/
def tts_body (key : Key) (config : TTSConfig) (model : Option String)
    (text : String) : RustResult (List (String × Json)) :=
  match tts_body_voice key config (tts_body_base key model text) with
  | .err e => .err e
  | .fatal m => .fatal m
  | .ok body => .ok (tts_body_post config body)

/-- Embedding of the header construction of `tts`
(`src/text_to_speech.rs` lines 193-199): the shared `request_headers`
routine (defined outside `src/`, taken as a parameter, `?`-propagated)
with the `Authorization` entry removed for Google. -/
def tts_headers (request_headers : Key → RustResult HeaderMap) (key : Key) :
    RustResult HeaderMap :=
  if key.provider = Provider.Google then
    match request_headers key with
    | .ok headers => .ok (removeHeader "Authorization" headers)
    | .err e => .err e
    | .fatal m => .fatal m
  else
    request_headers key

/-- Alphabet index of the alphabet character of any 6-bit value. -/
theorem charIdx_encChar : ∀ n : Fin 64, charIdx (encChar n.val) = some n.val := by decide

/-- Alphabet characters are never the padding character. -/
theorem encChar_ne_pad : ∀ n : Fin 64, encChar n.val ≠ '=' := by decide

theorem charIdx_encChar_of_lt {n : Nat} (h : n < 64) : charIdx (encChar n) = some n :=
  charIdx_encChar ⟨n, h⟩

theorem encChar_ne_pad_of_lt {n : Nat} (h : n < 64) : encChar n ≠ '=' :=
  encChar_ne_pad ⟨n, h⟩

/-- The encoding of a byte sequence is empty only for the empty sequence. -/
theorem b64encode_eq_nil_iff (l : List Nat) : b64encode l = [] ↔ l = [] := by
  match l with
  | [] => simp [b64encode]
  | [a] => simp [b64encode]
  | [a, b] => simp [b64encode]
  | a :: b :: c :: rest => simp [b64encode]

/-- Strict decoding inverts encoding on byte sequences. -/
theorem b64decode_b64encode (l : List Nat) (h : ∀ b ∈ l, b < 256) :
    b64decode (b64encode l) = some l := by
  induction l using b64encode.induct with
  | case1 => simp [b64encode, b64decode]
  | case2 a =>
    have ha : a < 256 := h a (by simp)
    have c1 := charIdx_encChar_of_lt (show a / 4 < 64 by omega)
    have c2 := charIdx_encChar_of_lt (show a % 4 * 16 < 64 by omega)
    simp [b64encode, b64decode, decodeLastGroup, c1, c2]
    omega
  | case3 a b =>
    have ha : a < 256 := h a (by simp)
    have hb : b < 256 := h b (by simp)
    have c1 := charIdx_encChar_of_lt (show a / 4 < 64 by omega)
    have c2 := charIdx_encChar_of_lt (show a % 4 * 16 + b / 16 < 64 by omega)
    have c3 := charIdx_encChar_of_lt (show b % 16 * 4 < 64 by omega)
    have n3 := encChar_ne_pad_of_lt (show b % 16 * 4 < 64 by omega)
    simp [b64encode, b64decode, decodeLastGroup, n3, c1, c2, c3]
    omega
  | case4 a b c rest ih =>
    have ha : a < 256 := h a (by simp)
    have hb : b < 256 := h b (by simp)
    have hc : c < 256 := h c (by simp)
    have ihr := ih (fun x hx => h x (by simp [hx]))
    have c1 := charIdx_encChar_of_lt (show a / 4 < 64 by omega)
    have c2 := charIdx_encChar_of_lt (show a % 4 * 16 + b / 16 < 64 by omega)
    have c3 := charIdx_encChar_of_lt (show b % 16 * 4 + c / 64 < 64 by omega)
    have c4 := charIdx_encChar_of_lt (show c % 64 < 64 by omega)
    have n3 := encChar_ne_pad_of_lt (show b % 16 * 4 + c / 64 < 64 by omega)
    have n4 := encChar_ne_pad_of_lt (show c % 64 < 64 by omega)
    by_cases hrest : rest = []
    · subst hrest
      simp [b64encode, b64decode, decodeLastGroup, decodeFullGroup, n3, n4, c1, c2, c3, c4]
      omega
    · have hne : ¬(b64encode rest).isEmpty = true := by
        simpa [List.isEmpty_iff, b64encode_eq_nil_iff] using hrest
      simp [b64encode, b64decode, decodeFullGroup, hne, c1, c2, c3, c4, ihr]
      constructor
      · omega
      · constructor
        · omega
        · omega

/-- Two strings with the same character data are equal. -/
theorem string_eq_of_data {a b : String} (h : a.data = b.data) : a = b := by
  cases a; cases b; exact congrArg String.mk h

/-- Character data of an appended string. -/
theorem string_data_append (a b : String) : (a ++ b).data = a.data ++ b.data := rfl

/-- String append is associative. -/
theorem string_append_assoc (a b c : String) : a ++ b ++ c = a ++ (b ++ c) :=
  string_eq_of_data (by simp [string_data_append])

/-- Stripping expected leading characters from exactly those characters
followed by a remainder yields the remainder. -/
theorem stripLeading_append (pre rest : List Char) :
    stripLeading pre (pre ++ rest) = some rest := by
  induction pre with
  | nil => rfl
  | cons p ps ih => simp [stripLeading, ih]

/-- C3: round-trip.  Appending the DeepInfra data-URL marker to the
standard base64 encoding of any byte sequence and decoding with provider
DeepInfra recovers the bytes; for every other provider the plain
standard base64 encoding decodes back to the bytes. -/
theorem base64_decode_roundtrip (l : List Nat) (h : ∀ b ∈ l, b < 256) :
    Speech.base64_decode (deepinfraMarker ++ String.mk (b64encode l))
      Provider.DeepInfra = .ok l ∧
    ∀ p : Provider, p ≠ Provider.DeepInfra →
      Speech.base64_decode (String.mk (b64encode l)) p = .ok l := by
  constructor
  · have hdata : (deepinfraMarker ++ String.mk (b64encode l)).data =
        deepinfraMarker.data ++ b64encode l := rfl
    simp [Speech.base64_decode, hdata, stripLeading_append, b64decode_b64encode l h]
  · intro p hp
    simp [Speech.base64_decode, hp, b64decode_b64encode l h]

/-- Witness for the round-trip at the concrete bytes `[104, 105]`
(`"hi"`, encoding `"aGk="`). -/
theorem base64_decode_roundtrip_witness :
    Speech.base64_decode (deepinfraMarker ++ String.mk (b64encode [104, 105]))
      Provider.DeepInfra = .ok [104, 105] ∧
    Speech.base64_decode (String.mk (b64encode [104, 105])) Provider.Hyperbolic =
      .ok [104, 105] :=
  ⟨(base64_decode_roundtrip [104, 105] (by decide)).1,
   (base64_decode_roundtrip [104, 105] (by decide)).2 Provider.Hyperbolic (by decide)⟩

/-- C10: `Speech::base64_decode` never takes the `Err` branch of its
return type: every outcome is a panic or `Ok` of the decoded bytes. -/
theorem base64_decode_never_err (audio : String) (p : Provider) :
    (Speech.base64_decode audio p).isErr = false ∧
    ((Speech.base64_decode audio p).isFatal = true ∨
      ∃ bytes, Speech.base64_decode audio p = .ok bytes) := by
  unfold Speech.base64_decode
  split
  · exact ⟨rfl, Or.inl rfl⟩
  · split
    · exact ⟨rfl, Or.inl rfl⟩
    · exact ⟨rfl, Or.inr ⟨_, rfl⟩⟩

/-- C4: the resolved endpoint URL for every supported provider, with
and without a model argument. -/
theorem address_urls (domain : Provider → String) (cred m : String)
    (mo : Option String) :
    address domain ⟨Provider.DeepInfra, cred⟩ none =
      .ok (domain Provider.DeepInfra ++ "/v1/inference/hexgrad/Kokoro-82M") ∧
    address domain ⟨Provider.DeepInfra, cred⟩ (some m) =
      .ok (domain Provider.DeepInfra ++ "/v1/inference/" ++ m) ∧
    address domain ⟨Provider.Hyperbolic, cred⟩ mo =
      .ok (domain Provider.Hyperbolic ++ "/v1/audio/generation") ∧
    address domain ⟨Provider.OpenAI, cred⟩ mo =
      .ok (domain Provider.OpenAI ++ "/v1/audio/speech") ∧
    address domain ⟨Provider.Google, cred⟩ mo =
      .ok ("https://texttospeech.googleapis.com/v1beta1/text:synthesize?key=" ++ cred) := by
  refine ⟨?_, rfl, rfl, rfl, ?_⟩
  · show RustResult.ok (domain Provider.DeepInfra ++ "/v1/inference/" ++ "hexgrad/Kokoro-82M") = _
    rw [string_append_assoc]
    have : ("/v1/inference/" : String) ++ "hexgrad/Kokoro-82M" = "/v1/inference/hexgrad/Kokoro-82M" := by decide
    rw [this]
  · show RustResult.ok ("https://texttospeech.googleapis.com" ++ "/v1beta1/text:synthesize" ++ "?key=" ++ cred) = _
    have : ("https://texttospeech.googleapis.com" : String) ++ "/v1beta1/text:synthesize" ++ "?key=" =
        "https://texttospeech.googleapis.com/v1beta1/text:synthesize?key=" := by decide
    rw [this]

/-- C8: the headers sent by `tts` are exactly the shared
`request_headers` output for every provider except Google; for Google
the `Authorization` entry is removed and every other entry is kept. -/
theorem tts_headers_spec (request_headers : Key → RustResult HeaderMap) (key : Key) :
    (key.provider ≠ Provider.Google →
      tts_headers request_headers key = request_headers key) ∧
    (key.provider = Provider.Google →
      ∀ hs : HeaderMap, request_headers key = .ok hs →
        tts_headers request_headers key = .ok (removeHeader "Authorization" hs) ∧
        ∀ h : String × String,
          h ∈ removeHeader "Authorization" hs ↔ h ∈ hs ∧ h.1 ≠ "Authorization") := by
  constructor
  · intro hne
    simp [tts_headers, hne]
  · intro hg hs hok
    constructor
    · simp [tts_headers, hg, hok]
    · intro h
      simp [removeHeader, List.mem_filter]

/-- Witness for the header behaviour at a concrete Google key and a
concrete two-entry header map. -/
theorem tts_headers_spec_witness :
    tts_headers (fun _ => .ok [("Authorization", "Bearer k"), ("Content-Type", "application/json")])
        ⟨Provider.Google, "k"⟩ =
      .ok (removeHeader "Authorization"
        [("Authorization", "Bearer k"), ("Content-Type", "application/json")]) ∧
    tts_headers (fun _ => .ok [("Authorization", "Bearer k")]) ⟨Provider.OpenAI, "k"⟩ =
      .ok [("Authorization", "Bearer k")] :=
  ⟨((tts_headers_spec _ ⟨Provider.Google, "k"⟩).2 rfl _ rfl).1,
   (tts_headers_spec _ ⟨Provider.OpenAI, "k"⟩).1 (by decide)⟩

/-- A constant JSON parser used to witness theorems that are
parameterized by the external parser. -/
def constParse (j : Json) : List Nat → Option Json := fun _ => some j

/-- C1: each provider's recognized error payload produces a recoverable
`err` carrying the payload's error text, never a panic: DeepInfra on a
body with a `detail` key, OpenAI on a JSON-parsable body with an `error`
key, Google on a body with an `error` key; a string payload is rendered
with its text verbatim between quotes when no character needs escaping. -/
theorem structured_error_payloads :
    (∀ (fromSlice : List Nat → Option Json) (bs : List Nat) (j v : Json),
      fromSlice bs = some j → j.get "detail" = some v →
        SpeechResponse.structured fromSlice ⟨Provider.DeepInfra, bs⟩ =
          .err ("DeepInfra returned an error: " ++ v.render)) ∧
    (∀ (fromSlice : List Nat → Option Json) (bs : List Nat) (j v : Json),
      fromSlice bs = some j → j.get "error" = some v →
        SpeechResponse.structured fromSlice ⟨Provider.OpenAI, bs⟩ = .err v.render) ∧
    (∀ (fromSlice : List Nat → Option Json) (bs : List Nat) (j v : Json),
      fromSlice bs = some j → j.get "error" = some v →
        SpeechResponse.structured fromSlice ⟨Provider.Google, bs⟩ = .err v.render) ∧
    (∀ s : String, (∀ c ∈ s.data, escapeChar c = String.mk [c]) →
      Json.render (.str s) = "\"" ++ s ++ "\"") := by
  refine ⟨?_, ?_, ?_, ?_⟩
  · intro fromSlice bs j v hp hd
    simp [SpeechResponse.structured, SpeechResponse.raw_value, hp, hd, Json.idx]
  · intro fromSlice bs j v hp hd
    simp [SpeechResponse.structured, SpeechResponse.raw_value, hp, hd, Json.idx]
  · intro fromSlice bs j v hp hd
    simp [SpeechResponse.structured, SpeechResponse.raw_value, hp, hd, Json.idx]
  · intro s hs
    have hesc : ∀ l : List Char, (∀ c ∈ l, escapeChar c = String.mk [c]) →
        escapeList l = String.mk l := by
      intro l
      induction l with
      | nil => intro _; rfl
      | cons c rest ih =>
        intro hl
        rw [escapeList, hl c (by simp), ih (fun x hx => hl x (by simp [hx]))]
        rfl
    show renderString s = _
    rw [renderString, escapeStr, hesc s.data hs]

/-- Witness for the error payloads at concrete fixture bodies. -/
theorem structured_error_payloads_witness :
    SpeechResponse.structured (constParse (.obj [("detail", .str "boom")]))
        ⟨Provider.DeepInfra, []⟩ =
      .err ("DeepInfra returned an error: " ++ (Json.str "boom").render) ∧
    SpeechResponse.structured (constParse (.obj [("error", .str "bad")]))
        ⟨Provider.OpenAI, []⟩ = .err (Json.str "bad").render ∧
    SpeechResponse.structured (constParse (.obj [("error", .str "bad")]))
        ⟨Provider.Google, []⟩ = .err (Json.str "bad").render ∧
    Json.render (.str "boom") = "\"" ++ "boom" ++ "\"" :=
  ⟨structured_error_payloads.1 _ [] _ _ rfl rfl,
   structured_error_payloads.2.1 _ [] _ _ rfl rfl,
   structured_error_payloads.2.2.1 _ [] _ _ rfl rfl,
   structured_error_payloads.2.2.2 "boom" (by decide)⟩

/-- C5: a Hyperbolic success payload `{"audio": "<base64>"}` is parsed
into `Speech` with `file_format = "mp3"`, no request id, and the decoded
audio bytes. -/
theorem structured_hyperbolic_success (fromSlice : List Nat → Option Json)
    (bs : List Nat) (s : String) (bytes : List Nat)
    (hp : fromSlice bs = some (Json.obj [("audio", Json.str s)]))
    (hdec : b64decode s.data = some bytes) :
    SpeechResponse.structured fromSlice ⟨Provider.Hyperbolic, bs⟩ =
      .ok { request_id := none, file_format := "mp3", audio := bytes } := by
  simp [SpeechResponse.structured, SpeechResponse.raw_value, hp, Json.idx,
    Json.get, assocLookup, Json.asStr, Speech.base64_decode, hdec]

/-- Witness for the Hyperbolic success payload at the fixture
`{"audio": "aGk="}` (decoding to the bytes of `"hi"`). -/
theorem structured_hyperbolic_success_witness :
    SpeechResponse.structured (constParse (.obj [("audio", .str "aGk=")]))
        ⟨Provider.Hyperbolic, []⟩ =
      .ok { request_id := none, file_format := "mp3", audio := [104, 105] } :=
  structured_hyperbolic_success _ [] "aGk=" [104, 105] rfl (by decide)

/-- C2: malformed or unexpected payloads panic instead of returning a
typed error: a DeepInfra body (parsed, no `detail` key) with `audio`,
`request_id` or `output_format` absent or non-string; an audio string
without the DeepInfra data-URL marker; a strict base64 decode failure
(with and without marker stripping); a panic in the decode step
propagating through the DeepInfra success path; a Google body (parsed,
no `error` key) with `audioContent` absent or non-string; and any
provider outside the four supported ones. -/
theorem structured_malformed_fatal :
    (∀ (fromSlice : List Nat → Option Json) (bs : List Nat) (j : Json),
      fromSlice bs = some j → j.get "detail" = none → (j.idx "audio").asStr = none →
        SpeechResponse.structured fromSlice ⟨Provider.DeepInfra, bs⟩ =
          .fatal "no audio in resp") ∧
    (∀ (fromSlice : List Nat → Option Json) (bs : List Nat) (j : Json) (a : String),
      fromSlice bs = some j → j.get "detail" = none → (j.idx "audio").asStr = some a →
      (j.idx "request_id").asStr = none →
        (SpeechResponse.structured fromSlice ⟨Provider.DeepInfra, bs⟩).isFatal = true) ∧
    (∀ (fromSlice : List Nat → Option Json) (bs : List Nat) (j : Json) (a rid : String),
      fromSlice bs = some j → j.get "detail" = none → (j.idx "audio").asStr = some a →
      (j.idx "request_id").asStr = some rid → (j.idx "output_format").asStr = none →
        (SpeechResponse.structured fromSlice ⟨Provider.DeepInfra, bs⟩).isFatal = true) ∧
    (∀ a : String, stripLeading deepinfraMarker.data a.data = none →
        Speech.base64_decode a Provider.DeepInfra = .fatal "no mp3 prefix") ∧
    (∀ (a : String) (s : List Char), stripLeading deepinfraMarker.data a.data = some s →
      b64decode s = none →
        Speech.base64_decode a Provider.DeepInfra = .fatal "no decode") ∧
    (∀ (a : String) (p : Provider), p ≠ Provider.DeepInfra → b64decode a.data = none →
        Speech.base64_decode a p = .fatal "no decode") ∧
    (∀ (fromSlice : List Nat → Option Json) (bs : List Nat) (j : Json) (a rid fmt m : String),
      fromSlice bs = some j → j.get "detail" = none → (j.idx "audio").asStr = some a →
      (j.idx "request_id").asStr = some rid → (j.idx "output_format").asStr = some fmt →
      Speech.base64_decode a Provider.DeepInfra = .fatal m →
        SpeechResponse.structured fromSlice ⟨Provider.DeepInfra, bs⟩ = .fatal m) ∧
    (∀ (fromSlice : List Nat → Option Json) (bs : List Nat) (j : Json),
      fromSlice bs = some j → j.get "error" = none → (j.idx "audioContent").asStr = none →
        SpeechResponse.structured fromSlice ⟨Provider.Google, bs⟩ = .fatal "audioContent") ∧
    (∀ (p : Provider) (fromSlice : List Nat → Option Json) (bs : List Nat),
      p ≠ Provider.DeepInfra → p ≠ Provider.Hyperbolic → p ≠ Provider.OpenAI →
      p ≠ Provider.Google →
        SpeechResponse.structured fromSlice ⟨p, bs⟩ =
          .fatal ("Unsupported TTS provider: " ++ p.display)) := by
  refine ⟨?_, ?_, ?_, ?_, ?_, ?_, ?_, ?_, ?_⟩
  · intro fromSlice bs j hp hd ha
    simp [SpeechResponse.structured, SpeechResponse.raw_value, hp, hd, ha]
  · intro fromSlice bs j a hp hd ha hr
    simp [SpeechResponse.structured, SpeechResponse.raw_value, hp, hd, ha, hr,
      RustResult.isFatal]
  · intro fromSlice bs j a rid hp hd ha hr ho
    simp [SpeechResponse.structured, SpeechResponse.raw_value, hp, hd, ha, hr, ho,
      RustResult.isFatal]
  · intro a hstrip
    simp [Speech.base64_decode, hstrip]
  · intro a s hstrip hdec
    simp [Speech.base64_decode, hstrip, hdec]
  · intro a p hne hdec
    simp [Speech.base64_decode, hne, hdec]
  · intro fromSlice bs j a rid fmt m hp hd ha hr ho hdec
    simp [SpeechResponse.structured, SpeechResponse.raw_value, hp, hd, ha, hr, ho, hdec]
  · intro fromSlice bs j hp he hac
    simp [SpeechResponse.structured, SpeechResponse.raw_value, hp, he, hac]
  · intro p fromSlice bs h1 h2 h3 h4
    simp [SpeechResponse.structured, h1, h2, h3, h4]

/-- Witness for the fatal outcomes at concrete malformed fixtures. -/
theorem structured_malformed_fatal_witness :
    SpeechResponse.structured (constParse (.obj [])) ⟨Provider.DeepInfra, []⟩ =
      .fatal "no audio in resp" ∧
    (SpeechResponse.structured (constParse (.obj [("audio", .str "aGk=")]))
        ⟨Provider.DeepInfra, []⟩).isFatal = true ∧
    (SpeechResponse.structured
        (constParse (.obj [("audio", .str "aGk="), ("request_id", .str "r")]))
        ⟨Provider.DeepInfra, []⟩).isFatal = true ∧
    Speech.base64_decode "aGk=" Provider.DeepInfra = .fatal "no mp3 prefix" ∧
    Speech.base64_decode "data:audio/mp3;base64,!" Provider.DeepInfra =
      .fatal "no decode" ∧
    Speech.base64_decode "!" Provider.Hyperbolic = .fatal "no decode" ∧
    SpeechResponse.structured
        (constParse (.obj [("audio", .str "aGk="), ("request_id", .str "r"),
          ("output_format", .str "mp3")]))
        ⟨Provider.DeepInfra, []⟩ = .fatal "no mp3 prefix" ∧
    SpeechResponse.structured (constParse (.obj [])) ⟨Provider.Google, []⟩ =
      .fatal "audioContent" ∧
    SpeechResponse.structured (constParse (.obj [])) ⟨Provider.other, []⟩ =
      .fatal ("Unsupported TTS provider: " ++ Provider.display Provider.other) :=
  ⟨structured_malformed_fatal.1 (constParse (.obj [])) [] (.obj []) rfl rfl rfl,
   structured_malformed_fatal.2.1 (constParse (.obj [("audio", .str "aGk=")])) []
     (.obj [("audio", .str "aGk=")]) "aGk=" rfl rfl rfl rfl,
   structured_malformed_fatal.2.2.1
     (constParse (.obj [("audio", .str "aGk="), ("request_id", .str "r")])) []
     (.obj [("audio", .str "aGk="), ("request_id", .str "r")]) "aGk=" "r"
     rfl rfl rfl rfl rfl,
   structured_malformed_fatal.2.2.2.1 "aGk=" (by decide),
   structured_malformed_fatal.2.2.2.2.1 "data:audio/mp3;base64,!" ['!'] (by decide) (by decide),
   structured_malformed_fatal.2.2.2.2.2.1 "!" Provider.Hyperbolic (by decide) (by decide),
   structured_malformed_fatal.2.2.2.2.2.2.1
     (constParse (.obj [("audio", .str "aGk="), ("request_id", .str "r"),
       ("output_format", .str "mp3")])) []
     (.obj [("audio", .str "aGk="), ("request_id", .str "r"),
       ("output_format", .str "mp3")]) "aGk=" "r" "mp3" "no mp3 prefix"
     rfl rfl rfl rfl rfl (structured_malformed_fatal.2.2.2.1 "aGk=" (by decide)),
   structured_malformed_fatal.2.2.2.2.2.2.2.1 (constParse (.obj [])) [] (.obj []) rfl rfl rfl,
   structured_malformed_fatal.2.2.2.2.2.2.2.2 Provider.other (constParse (.obj [])) []
     (by decide) (by decide) (by decide) (by decide)⟩

/-- Looking up the key just set finds the value just set. -/
theorem assocLookup_assocSet_self (l : List (String × Json)) (k : String) (v : Json) :
    assocLookup (assocSet l k v) k = some v := by
  induction l with
  | nil => simp [assocSet, assocLookup]
  | cons p rest ih =>
    by_cases h : p.1 = k
    · simp [assocSet, assocLookup, h]
    · simp [assocSet, assocLookup, h, ih]

/-- Setting one key leaves lookups of other keys unchanged. -/
theorem assocLookup_assocSet_ne (l : List (String × Json)) (k k' : String) (v : Json)
    (h : k ≠ k') : assocLookup (assocSet l k v) k' = assocLookup l k' := by
  induction l with
  | nil => simp [assocSet, assocLookup, h]
  | cons p rest ih =>
    by_cases hp : p.1 = k
    · simp [assocSet, assocLookup, hp, h]
    · simp [assocSet, assocLookup, hp, ih]

/-- Merging entries for other keys leaves a lookup unchanged. -/
theorem assocLookup_merge_notmem (m : List (String × Json)) :
    ∀ b : List (String × Json), ∀ k : String, k ∉ m.map Prod.fst →
      assocLookup (m.foldl (fun acc kv => assocSet acc kv.1 kv.2) b) k = assocLookup b k := by
  induction m with
  | nil => intro b k _; rfl
  | cons kv rest ih =>
    intro b k h
    simp only [List.map_cons, List.mem_cons] at h
    push_neg at h
    simp only [List.foldl_cons]
    rw [ih _ _ h.2, assocLookup_assocSet_ne _ _ _ _ (fun e => h.1 e.symm)]

/-- Merging a distinct-key map makes every entry of the map visible. -/
theorem assocLookup_merge_mem (m : List (String × Json)) :
    ∀ b : List (String × Json), (m.map Prod.fst).Nodup →
      ∀ kv ∈ m, assocLookup (m.foldl (fun acc kv => assocSet acc kv.1 kv.2) b) kv.1 = some kv.2 := by
  induction m with
  | nil => intro b _ kv hkv; cases hkv
  | cons hd rest ih =>
    intro b hnd kv hkv
    simp only [List.map_cons, List.nodup_cons] at hnd
    rcases List.mem_cons.mp hkv with heq | hmem
    · subst heq
      simp only [List.foldl_cons]
      rw [assocLookup_merge_notmem rest _ _ hnd.1, assocLookup_assocSet_self]
    · simp only [List.foldl_cons]
      exact ih _ hnd.2 kv hmem

/-- C7: every entry of `Config.other` appears at top level in the built
body, merged after all typed fields (so a colliding key replaces the
typed field's value). -/
theorem tts_body_other_entries (key : Key) (config : TTSConfig) (model : Option String)
    (text : String) (m : List (String × Json)) (body : List (String × Json))
    (hm : config.other = some m) (hnd : (m.map Prod.fst).Nodup)
    (hok : tts_body key config model text = .ok body) :
    ∀ kv ∈ m, assocLookup body kv.1 = some kv.2 := by
  intro kv hkv
  unfold tts_body at hok
  cases hv : tts_body_voice key config (tts_body_base key model text) with
  | err e => rw [hv] at hok; simp at hok
  | fatal m' => rw [hv] at hok; simp at hok
  | ok b1 =>
    rw [hv] at hok
    simp only [RustResult.ok.injEq] at hok
    rw [← hok]
    unfold tts_body_post
    rw [hm]
    exact assocLookup_merge_mem m _ hnd kv hkv

/-- Witness for the extension-map merge: a fresh key appears, and a key
colliding with the typed `speed` field keeps the map's value. -/
theorem tts_body_other_entries_witness :
    assocLookup [("input", Json.str "hi"), ("foo", Json.str "bar")] "foo" =
      some (Json.str "bar") ∧
    assocLookup [("input", Json.str "hi"), ("speed", Json.num 9)] "speed" =
      some (Json.num 9) :=
  ⟨tts_body_other_entries ⟨Provider.OpenAI, "k"⟩ { other := some [("foo", .str "bar")] }
     none "hi" [("foo", .str "bar")] [("input", Json.str "hi"), ("foo", Json.str "bar")]
     rfl (by decide) rfl ("foo", .str "bar") (List.mem_singleton.mpr rfl),
   tts_body_other_entries ⟨Provider.OpenAI, "k"⟩
     { speed := some 1, other := some [("speed", .num 9)] }
     none "hi" [("speed", .num 9)] [("input", Json.str "hi"), ("speed", Json.num 9)]
     rfl (by decide) rfl ("speed", .num 9) (List.mem_singleton.mpr rfl)⟩

/-- C6: with only `speed` set the built body has a `speed` field and no
`voice`, `preset_voice` or `output_format` field; in general each absent
`Config` field is omitted from the body entirely. -/
theorem tts_body_field_presence :
    (∀ (key : Key) (model : Option String) (text : String) (s : Rat),
      ∃ body, tts_body key { speed := some s } model text = .ok body ∧
        assocLookup body "speed" = some (.num s) ∧
        assocLookup body "voice" = none ∧
        assocLookup body "preset_voice" = none ∧
        assocLookup body "output_format" = none) ∧
    (∀ (key : Key) (config : TTSConfig) (model : Option String) (text : String)
        (body : List (String × Json)),
      config.other = none → tts_body key config model text = .ok body →
        (config.speed = none → assocLookup body "speed" = none) ∧
        (config.voice = none → assocLookup body "voice" = none ∧
          assocLookup body "preset_voice" = none) ∧
        (config.output_format = none → assocLookup body "output_format" = none)) := by
  constructor
  · rintro ⟨p, cred⟩ model text s
    cases p <;> cases model <;>
      refine ⟨_, rfl, ?_, ?_, ?_, ?_⟩ <;>
        simp [tts_body, tts_body_base, tts_body_voice, tts_body_post, assocSet, assocLookup]
  · rintro ⟨p, cred⟩ ⟨of, vo, sp, lc, ot⟩ model text body hot hok
    simp only at hot
    subst hot
    cases p <;> cases model <;> cases of <;> cases vo <;> cases sp <;> cases lc <;>
      simp_all [tts_body, tts_body_base, tts_body_voice, tts_body_post, assocSet, assocLookup] <;>
      (subst hok; simp [assocLookup])

/-- Witness for the field-presence properties at a concrete
speed-only config and at the default config. -/
theorem tts_body_field_presence_witness :
    (∃ body, tts_body ⟨Provider.OpenAI, "k"⟩ { speed := some 2 } none "hi" = .ok body ∧
      assocLookup body "speed" = some (.num 2) ∧
      assocLookup body "voice" = none ∧
      assocLookup body "preset_voice" = none ∧
      assocLookup body "output_format" = none) ∧
    ((({} : TTSConfig).speed = none →
        assocLookup [("input", Json.str "hi")] "speed" = none) ∧
      (({} : TTSConfig).voice = none →
        assocLookup [("input", Json.str "hi")] "voice" = none ∧
        assocLookup [("input", Json.str "hi")] "preset_voice" = none) ∧
      (({} : TTSConfig).output_format = none →
        assocLookup [("input", Json.str "hi")] "output_format" = none)) :=
  ⟨tts_body_field_presence.1 ⟨Provider.OpenAI, "k"⟩ none "hi" 2,
   tts_body_field_presence.2 ⟨Provider.OpenAI, "k"⟩ {} none "hi"
     [("input", Json.str "hi")] rfl rfl⟩

/-- C9: for Hyperbolic a set `voice` makes the body builder panic with
the unsupported-provider message, although Hyperbolic succeeds whenever
`voice` is absent. -/
theorem tts_body_hyperbolic_voice (cred : String) (config : TTSConfig)
    (model : Option String) (text : String) :
    (∀ v, config.voice = some v →
      tts_body ⟨Provider.Hyperbolic, cred⟩ config model text =
        .fatal ("Unsupported TTS provider: " ++ Provider.display Provider.Hyperbolic)) ∧
    (config.voice = none →
      ∃ body, tts_body ⟨Provider.Hyperbolic, cred⟩ config model text = .ok body) := by
  constructor
  · intro v hv
    simp [tts_body, tts_body_voice, hv]
  · intro hv
    simp [tts_body, tts_body_voice, hv]

/-- Witness for the Hyperbolic voice behaviour at a concrete config
with a voice and at the default config. -/
theorem tts_body_hyperbolic_voice_witness :
    tts_body ⟨Provider.Hyperbolic, "k"⟩ { voice := some "alloy" } none "hi" =
      .fatal ("Unsupported TTS provider: " ++ Provider.display Provider.Hyperbolic) ∧
    ∃ body, tts_body ⟨Provider.Hyperbolic, "k"⟩ {} none "hi" = .ok body :=
  ⟨(tts_body_hyperbolic_voice "k" { voice := some "alloy" } none "hi").1 "alloy" rfl,
   (tts_body_hyperbolic_voice "k" {} none "hi").2 rfl⟩
